import Mathlib

/-
Verification development for the tank-killer-game server core.

The definitions below are a shallow embedding, over exact rationals, of the
parts of the JavaScript source that the checked claims touch:

  - src/shared/constants.js   (TANK_ATTRIBUTES, DAMAGE_PARAMS, UPGRADE_TYPES)
  - src/shared/types.js       (second revision of the file: Tank, Shell,
                               Upgrade, Tree and their methods)
  - src/shared/collision.js   (checkAABBCollision,
                               getRandomPositionAvoidingObstacles)
  - src/shared/spatialHashing.js (SpatialHash, used by HybridSpatialSystem
                               in hash mode, the only mode the engine
                               reaches through update)
  - src/server/gameEngine.js  (spawnUpgrades, the shell-to-tree segment of
                               checkCollisions, updateSpatialManager)
  - src/shared/ai.js          (AIController.setAILevelBehavior, attemptShot)

Modelling conventions:
  - JavaScript numbers are modelled by the rationals.  The library functions
    Math.sqrt, Math.atan2, Math.cos, Math.sin and the constant Math.PI are
    not rational-valued, so they are supplied through an oracle record
    MathOracle; theorems that depend on an actual value of the oracle either
    quantify over every oracle or carry pointwise faithfulness hypotheses
    (for example that the oracle value of sqrt at 9 is 3), and every concrete
    oracle used in a closed statement agrees with the genuine real functions
    at every point the computation touches.
  - Calls to Math.random and Date.now are passed in as explicit parameters
    (random draws, identifiers, the current time), exactly where the source
    reads them.
  - Bounded while loops of the source become fuel recursion with the fuel
    taken from the source (100 spawn attempts) or chosen far beyond any
    reachable iteration count (angle normalisation).
-/

/-- Vector2 from types.js restricted to its data: a pair of numbers. -/
structure Vec2 where
  x : ℚ
  y : ℚ
deriving DecidableEq, Repr

/-- Oracle for the JavaScript Math library functions that have no exact
rational counterpart.  Each field stands for the corresponding Math function;
atan2 takes its arguments in the source order (y, x). -/
structure MathOracle where
  sqrt : ℚ → ℚ
  atan2 : ℚ → ℚ → ℚ
  cos : ℚ → ℚ
  sin : ℚ → ℚ
  pi : ℚ

/-- One min and max pair of TANK_ATTRIBUTES in constants.js. -/
structure AttrLimit where
  max : ℚ
  min : ℚ
deriving DecidableEq, Repr

/-- Record of the six per-attribute limits of TANK_ATTRIBUTES. -/
structure TankLimits where
  health : AttrLimit
  speed : AttrLimit
  gasoline : AttrLimit
  rotation : AttrLimit
  ammunition : AttrLimit
  kinetics : AttrLimit
deriving DecidableEq, Repr

/-- TANK_ATTRIBUTES from constants.js: HEALTH max 100 min 0, SPEED max 50
min 25, GASOLINE max 100 min 0, ROTATION max 30 min 5, AMMUNITION max 14
min 0, KINETICS max 300 min 50. -/
def TANK_ATTRIBUTES : TankLimits :=
  { health := ⟨100, 0⟩
    speed := ⟨50, 25⟩
    gasoline := ⟨100, 0⟩
    rotation := ⟨30, 5⟩
    ammunition := ⟨14, 0⟩
    kinetics := ⟨300, 50⟩ }

/-- DAMAGE_PARAMS from constants.js. -/
structure DamageParams where
  health : ℚ
  speed : ℚ
  rotation : ℚ
  kinetics : ℚ
  gasoline : ℚ
deriving DecidableEq, Repr

/-- DAMAGE_PARAMS values: HEALTH 1, SPEED 2, ROTATION 4, KINETICS 15,
GASOLINE 5. -/
def DAMAGE_PARAMS : DamageParams :=
  { health := 1, speed := 2, rotation := 4, kinetics := 15, gasoline := 5 }

/-- TankAttributes from types.js (second revision): the six numeric fields in
constructor order. -/
structure TankAttributes where
  health : ℚ
  speed : ℚ
  gasoline : ℚ
  rotation : ℚ
  ammunition : ℚ
  kinetics : ℚ
deriving DecidableEq, Repr

/-- Values the TankAttributes constructor assigns: health 100, speed 50,
gasoline 100, rotation 50, ammunition 14, kinetics 300. -/
def defaultTankAttributes : TankAttributes :=
  { health := 100, speed := 50, gasoline := 100
    rotation := 50, ammunition := 14, kinetics := 300 }

/-- Shell from types.js (second revision) together with the id that the
shell pool in objectPools.js stamps on every shell it hands out. -/
structure Shell where
  id : String
  shooterId : String
  position : Vec2
  velocity : Vec2
  timestamp : ℚ
  shooterImmunity : ℚ
deriving DecidableEq, Repr

/-- Tank from types.js (second revision), restricted to the fields the
claims touch: identity, pose, velocities, attributes, life-cycle timers and
the shooting animation state.  The purely visual recoil offsets are not
modelled; no claim mentions them. -/
structure Tank where
  id : String
  position : Vec2
  angle : ℚ
  velocity : Vec2
  targetVelocity : Vec2
  attributes : TankAttributes
  isAlive : Bool
  respawnTime : ℚ
  reloadTime : ℚ
  lastShot : ℚ
  firingImmunity : ℚ
  isAI : Bool
  isFiring : Bool
  fireAnim : ℚ
  lastFireTime : ℚ
  pendulumDirection : ℚ
deriving DecidableEq, Repr

/-- Tank.canShoot: alive, ammunition strictly positive and reload expired. -/
def Tank.canShoot (t : Tank) : Bool :=
  t.isAlive && decide (t.attributes.ammunition > 0) && decide (t.reloadTime ≤ 0)

/-- Tank.shoot.  Date.now() is the parameter now, the pooled shell id and
the random pendulum direction are parameters.  On failure of canShoot the
source returns null having changed nothing; on success it sets the firing
immunity to now plus 200, decrements ammunition, sets reloadTime to 1000,
records the shot time, starts the firing animation state and builds a shell
20 units ahead of the tank along its facing with speed equal to the
kinetics attribute. -/
def Tank.shoot (M : MathOracle) (t : Tank) (now : ℚ) (shellId : String)
    (pdir : ℚ) : Option Shell × Tank :=
  if ¬ t.canShoot then (none, t)
  else
    let immunity := now + 200
    let dirx := M.cos t.angle
    let diry := M.sin t.angle
    let shellSpeed := t.attributes.kinetics
    let shell : Shell :=
      { id := shellId
        shooterId := t.id
        position := ⟨t.position.x + dirx * 20, t.position.y + diry * 20⟩
        velocity := ⟨dirx * shellSpeed, diry * shellSpeed⟩
        timestamp := now
        shooterImmunity := immunity }
    let t2 : Tank :=
      { t with
        firingImmunity := immunity
        attributes := { t.attributes with
          ammunition := t.attributes.ammunition - 1 }
        reloadTime := 1000
        lastShot := now
        isFiring := true
        fireAnim := 0
        lastFireTime := now
        pendulumDirection := pdir }
    (some shell, t2)

/-- Tank.die: clear the alive flag and arm the 5000 ms respawn timer. -/
def Tank.die (t : Tank) : Tank :=
  { t with isAlive := false, respawnTime := 5000 }

/-- Tank.takeDamage with Date.now() as the parameter now.  Returns whether
damage was applied together with the resulting tank.  The three guard
returns leave the tank untouched; otherwise health drops by the health
damage parameter unclamped, while speed, rotation, kinetics and gasoline are
clamped from below at the hardcoded floors 5, 5, 50 and 0. -/
def Tank.takeDamage (t : Tank) (fromShell : Option Shell) (now : ℚ) :
    Bool × Tank :=
  if t.isAlive = false then (false, t)
  else if t.firingImmunity > now then (false, t)
  else if (match fromShell with
           | some s => decide (s.shooterImmunity > now) && decide (s.shooterId = t.id)
           | none => false) then (false, t)
  else
    let a := t.attributes
    let a1 : TankAttributes :=
      { a with
        health := a.health - DAMAGE_PARAMS.health
        speed := max 5 (a.speed - DAMAGE_PARAMS.speed)
        rotation := max 5 (a.rotation - DAMAGE_PARAMS.rotation)
        kinetics := max 50 (a.kinetics - DAMAGE_PARAMS.kinetics)
        gasoline := max 0 (a.gasoline - DAMAGE_PARAMS.gasoline) }
    let t1 := { t with attributes := a1 }
    (true, if a1.health ≤ 0 then t1.die else t1)

/-- Tank.respawn with the two Math.random draws (position and angle) as
parameters: revive, teleport, zero both velocities, reset the attributes to
the TankAttributes constructor values and clear the timers. -/
def Tank.respawn (t : Tank) (rp : Vec2) (ra : ℚ) : Tank :=
  { t with
    isAlive := true
    position := rp
    angle := ra
    velocity := ⟨0, 0⟩
    targetVelocity := ⟨0, 0⟩
    attributes := defaultTankAttributes
    respawnTime := 0
    reloadTime := 0
    firingImmunity := 0 }

/-- Dead branch of Tank.update (types.js second revision, the early-return
taken while isAlive is false): decrement the respawn timer by deltaTime and
respawn once it is not positive.  The alive branch of update is modelled
separately by tankTreeCollisionStep for the single part the claims touch. -/
def Tank.updateDeadPhase (t : Tank) (deltaTime : ℚ) (rp : Vec2) (ra : ℚ) :
    Tank :=
  let t1 := { t with respawnTime := t.respawnTime - deltaTime }
  if t1.respawnTime ≤ 0 then t1.respawn rp ra else t1

/-- Clamp of the source idiom max lo (min hi v). -/
def clampQ (lo hi v : ℚ) : ℚ := max lo (min hi v)

/-- Tree from types.js (second revision), restricted to the dynamic state
its impact, boostSwingFrequency and the tank collision code touch. -/
structure TreeObj where
  position : Vec2
  size : ℚ
  swingAngle : ℚ
  swingVelocity : ℚ
  lastImpactTime : ℚ
  frequencyBoostUntil : ℚ
  frequencyBoostFactor : ℚ
  foliageVelocityX : ℚ
  foliageVelocityY : ℚ
  foliageOffsetX : ℚ
  foliageOffsetY : ℚ
deriving DecidableEq, Repr

/-- TreeObj.impact with Date.now() as the parameter now.  Impacts whose speed
is below 1 are ignored.  Otherwise the normalised impact direction yields a
swing impulse proportional to minus its atan2 angle, clamped into the band
from -1.5 to 1.5, and a foliage-velocity impulse opposite to the direction,
clamped into the band from -2.5 to 2.5.  The force scale uses the explicit
force when it is a truthy (nonzero) number, as at both call sites. -/
def TreeObj.impact (M : MathOracle) (tr : TreeObj) (iv : Vec2) (impactForce : ℚ)
    (now : ℚ) : TreeObj :=
  let impactSpeed := M.sqrt (iv.x * iv.x + iv.y * iv.y)
  if impactSpeed < 1 then tr
  else
    let dirx := if impactSpeed > 0 then iv.x / impactSpeed else 0
    let diry := if impactSpeed > 0 then iv.y / impactSpeed else 0
    let forceScale :=
      if impactForce ≠ 0 then min (impactForce / 10) 5 else min (impactSpeed / 5) 5
    let impactAngle := M.atan2 diry dirx
    let swingImpulse := -impactAngle * forceScale * 0.02
    { tr with
      swingVelocity := clampQ (-1.5) 1.5 (tr.swingVelocity + swingImpulse)
      foliageVelocityX :=
        clampQ (-2.5) 2.5 (tr.foliageVelocityX + (-dirx * forceScale * 1.0))
      foliageVelocityY :=
        clampQ (-2.5) 2.5 (tr.foliageVelocityY + (-diry * forceScale * 1.0))
      lastImpactTime := now }

/-- TreeObj.boostSwingFrequency: extend the boost deadline to at least now plus
the duration and clamp the factor into the band from 1 to 3. -/
def TreeObj.boostSwingFrequency (tr : TreeObj) (now durationMs factor : ℚ) : TreeObj :=
  { tr with
    frequencyBoostUntil := max tr.frequencyBoostUntil (now + durationMs)
    frequencyBoostFactor := max 1 (min 3 factor) }

/-- Result of resolving one tank against one tree. -/
structure TreeCollisionResult where
  position : Vec2
  velocity : Vec2
  tree : TreeObj
deriving DecidableEq, Repr

/-- Body of the per-tree collision loop inside Tank.update (types.js second
revision): the tank is a circle of radius 20, the trunk a circle of radius
size/16 centred at (tree.x, tree.y - size/2).  On overlap with distance
above 0.1 the tank is pushed out along the normal; if it was moving toward
the trunk, 0.8 of the inward component is added back along the normal, a 5
percent friction multiplies both components, the tree takes an impact with
the negated resulting velocity and force 0.3 times the inward component,
and its swing frequency is boosted by factor 1.8 for 1200 ms. -/
def tankTreeCollisionStep (M : MathOracle) (pos vel : Vec2) (tr : TreeObj)
    (now : ℚ) : TreeCollisionResult :=
  let tankRadius : ℚ := 20
  let trunkRadius := tr.size / 16
  let trunkX := tr.position.x
  let trunkY := tr.position.y - tr.size / 2
  let dx := pos.x - trunkX
  let dy := pos.y - trunkY
  let distance := M.sqrt (dx * dx + dy * dy)
  let minDistance := tankRadius + trunkRadius
  if distance < minDistance ∧ distance > 0.1 then
    let normalX := dx / distance
    let normalY := dy / distance
    let overlap := minDistance - distance
    let px := pos.x + normalX * overlap
    let py := pos.y + normalY * overlap
    let velocityTowardTree := -(vel.x * normalX + vel.y * normalY)
    if velocityTowardTree > 0 then
      let vx1 := (vel.x + normalX * velocityTowardTree * 0.8) * 0.95
      let vy1 := (vel.y + normalY * velocityTowardTree * 0.8) * 0.95
      let impactForce := velocityTowardTree * 0.3
      let tr1 := TreeObj.impact M tr ⟨-vx1, -vy1⟩ impactForce now
      ⟨⟨px, py⟩, ⟨vx1, vy1⟩, tr1.boostSwingFrequency now 1200 1.8⟩
    else
      ⟨⟨px, py⟩, vel, tr⟩
  else
    ⟨pos, vel, tr⟩

/-- Position built from one pair of Math.random draws, as in
getRandomPositionAvoidingObstacles of collision.js. -/
def positionFromDraw (d : ℚ × ℚ) (minX minY maxX maxY : ℚ) : Vec2 :=
  ⟨d.1 * (maxX - minX) + minX, d.2 * (maxY - minY) + minY⟩

/-- Distance test of getRandomPositionAvoidingObstacles: some obstacle is
closer than minDistance to the candidate position, distances measured with
the sqrt oracle exactly as the source does. -/
def tooCloseCheck (M : MathOracle) (p : Vec2) (obstacles : List Vec2)
    (minDistance : ℚ) : Bool :=
  obstacles.any (fun o =>
    decide (M.sqrt ((p.x - o.x) ^ 2 + (p.y - o.y) ^ 2) < minDistance))

/-- Attempt loop of getRandomPositionAvoidingObstacles; the fuel is the
remaining attempt budget and k indexes the random draws consumed so far.
When the budget runs out the source falls back to one more unconstrained
random position. -/
def grpaoGo (M : MathOracle) (draws : ℕ → ℚ × ℚ) (obstacles : List Vec2)
    (minDistance minX minY maxX maxY : ℚ) : ℕ → ℕ → Vec2
  | 0, k => positionFromDraw (draws k) minX minY maxX maxY
  | fuel + 1, k =>
    let p := positionFromDraw (draws k) minX minY maxX maxY
    if tooCloseCheck M p obstacles minDistance then
      grpaoGo M draws obstacles minDistance minX minY maxX maxY fuel (k + 1)
    else p

/-- getRandomPositionAvoidingObstacles from collision.js with its default
arguments minDistance 50 and bounds 50 to 1450 and 50 to 850, and its
maxAttempts constant 100. -/
def getRandomPositionAvoidingObstacles (M : MathOracle) (draws : ℕ → ℚ × ℚ)
    (obstacles : List Vec2) (minDistance minX minY maxX maxY : ℚ) : Vec2 :=
  grpaoGo M draws obstacles minDistance minX minY maxX maxY 100 0

/-- Upgrade type keys of UPGRADE_TYPES in constants.js, in declaration
order. -/
inductive UpgradeType
  | SPEED
  | GASOLINE
  | ROTATION
  | AMMUNITION
  | KINETICS
  | HEALTH
deriving DecidableEq, Repr

/-- Count field of UPGRADE_TYPES: 2 for every type except HEALTH with 0. -/
def upgradeTargetCount : UpgradeType → ℕ
  | .SPEED => 2
  | .GASOLINE => 2
  | .ROTATION => 2
  | .AMMUNITION => 2
  | .KINETICS => 2
  | .HEALTH => 0

/-- Object.entries order of UPGRADE_TYPES, the order spawnUpgrades walks. -/
def allUpgradeTypes : List UpgradeType :=
  [.SPEED, .GASOLINE, .ROTATION, .AMMUNITION, .KINETICS, .HEALTH]

/-- Upgrade from types.js (second revision). -/
structure Upgrade where
  type : UpgradeType
  position : Vec2
  collected : Bool
  rotation : ℚ
deriving DecidableEq, Repr

/-- Count of upgrades of one type in a list, as the upgradeCounts tally of
GameEngine.spawnUpgrades computes it. -/
def countUpgradesOfType (ups : List Upgrade) (T : UpgradeType) : ℕ :=
  (ups.filter (fun u => decide (u.type = T))).length

/-- Body of the spawn loop of GameEngine.spawnUpgrades for one upgrade type:
when the pre-pass count of the type is below its target, append one new
upgrade at a position drawn clear of the trees, the upgrades spawned so far
and the tanks.  The counts function is the tally taken before the loop. -/
def spawnStep (M : MathOracle) (draws : UpgradeType → ℕ → ℚ × ℚ)
    (rotFn : UpgradeType → ℚ) (treePositions tankPositions : List Vec2)
    (counts : UpgradeType → ℕ) (acc : List Upgrade) (T : UpgradeType) :
    List Upgrade :=
  if counts T < upgradeTargetCount T then
    let obstacles := treePositions ++ acc.map (fun u => u.position) ++ tankPositions
    let p := getRandomPositionAvoidingObstacles M (draws T) obstacles 50 50 50 1450 850
    acc ++ [{ type := T, position := p, collected := false, rotation := rotFn T }]
  else acc

/-- GameEngine.spawnUpgrades: tally the upgrades by type once, then walk the
configured types, spawning one upgrade for each type whose count is below
its target. -/
def spawnUpgrades (M : MathOracle) (draws : UpgradeType → ℕ → ℚ × ℚ)
    (rotFn : UpgradeType → ℚ) (treePositions tankPositions : List Vec2)
    (ups : List Upgrade) : List Upgrade :=
  allUpgradeTypes.foldl
    (spawnStep M draws rotFn treePositions tankPositions
      (fun T => countUpgradesOfType ups T)) ups

/-- Entity kind tag; the source collision pass reads constructor.name. -/
inductive EntityKind
  | tankK
  | shellK
  | treeK
  | upgradeK
deriving DecidableEq, Repr

/-- Bounds record as stored on entities (x, y, width, height). -/
structure BoundsQ where
  x : ℚ
  y : ℚ
  width : ℚ
  height : ℚ
deriving DecidableEq, Repr

/-- Projection of a game entity to what the spatial hash reads: the id field
(absent on Tree and Upgrade objects, present on Tank and pooled Shell
objects), the bounds field and the constructor kind. -/
structure SEntity where
  id : Option String
  bounds : Option BoundsQ
  kind : EntityKind
deriving DecidableEq, Repr

/-- Integer range from lo to hi inclusive, matching the nested for loops of
SpatialHash.getEntityCells. -/
def intRange (lo hi : ℤ) : List ℤ :=
  (List.range (hi + 1 - lo).toNat).map (fun i => lo + i)

/-- SpatialHash.getEntityCells: all grid cells the bounds rectangle touches,
cell coordinates obtained by flooring the divided coordinates. -/
def getEntityCells (b : BoundsQ) (cellSize : ℚ) : List (ℤ × ℤ) :=
  let minX := ⌊b.x / cellSize⌋
  let maxX := ⌊(b.x + b.width) / cellSize⌋
  let minY := ⌊b.y / cellSize⌋
  let maxY := ⌊(b.y + b.height) / cellSize⌋
  ((intRange minX maxX).map (fun cx =>
    (intRange minY maxY).map (fun cy => (cx, cy)))).flatten

/-- Grid of the spatial hash as an association list from cell to the cell's
entity list (the JS Map of Sets, in insertion order). -/
abbrev GridQ := List ((ℤ × ℤ) × List SEntity)

/-- Contents of one cell of the grid, empty when the cell is absent. -/
def gridGet (g : GridQ) (c : ℤ × ℤ) : List SEntity :=
  match g.find? (fun kv => decide (kv.1 = c)) with
  | some kv => kv.2
  | none => []

/-- Append an entity to a cell, creating the cell when absent. -/
def gridAdd (g : GridQ) (c : ℤ × ℤ) (e : SEntity) : GridQ :=
  if (g.find? (fun kv => decide (kv.1 = c))).isSome then
    g.map (fun kv => if kv.1 = c then (kv.1, kv.2 ++ [e]) else kv)
  else g ++ [(c, [e])]

/-- Drop the first entity with a given id from a cell list, as the removal
loop of SpatialHash.remove does. -/
def removeFirstWithId : List SEntity → String → List SEntity
  | [], _ => []
  | e :: rest, i => if e.id = some i then rest else e :: removeFirstWithId rest i

/-- SpatialHash state: the grid plus the entityCells tracking map. -/
structure HashState where
  grid : GridQ
  entityCells : List (String × List (ℤ × ℤ))
deriving Repr

/-- SpatialHash.remove: for each tracked cell of the id, drop that entity
from the cell and drop the cell when it empties, then drop the tracking
entry. -/
def hashRemove (s : HashState) (eid : String) : HashState :=
  match s.entityCells.find? (fun kv => decide (kv.1 = eid)) with
  | none => s
  | some tracked =>
    let g := tracked.2.foldl
      (fun (g : GridQ) c =>
        (g.map (fun kv =>
          if kv.1 = c then (kv.1, removeFirstWithId kv.2 eid) else kv)).filter
          (fun kv => decide (kv.2 ≠ [])))
      s.grid
    { grid := g
      entityCells := s.entityCells.filter (fun kv => decide (kv.1 ≠ eid)) }

/-- SpatialHash.insert: entities lacking bounds or lacking an id are
silently skipped; otherwise the entity is removed under its id, added to
every cell its bounds occupy, and its cells are tracked.  The engine builds
the hash with cellSize 50. -/
def hashInsert (s : HashState) (e : SEntity) : HashState :=
  match e.bounds, e.id with
  | some b, some eid =>
    let cellKeys := getEntityCells b 50
    let s1 := hashRemove s eid
    { grid := cellKeys.foldl (fun g c => gridAdd g c e) s1.grid
      entityCells := s1.entityCells ++ [(eid, cellKeys)] }
  | _, _ => s

/-- HybridSpatialSystem.update in hash mode (the quadtree is never built on
the engine's update-only path): clear, then insert every entity that has
bounds. -/
def hashUpdate (entities : List SEntity) : HashState :=
  entities.foldl
    (fun s e => if e.bounds.isSome then hashInsert s e else s)
    ⟨[], []⟩

/-- SpatialHash.getCollisionCandidates: expand the bounds by the search
radius, walk the touched cells and collect their entities minus the querying
entity itself, deduplicated as the JS Set does. -/
def getCollisionCandidates (s : HashState) (e : SEntity) (searchRadius : ℚ) :
    List SEntity :=
  match e.bounds with
  | none => []
  | some b =>
    let sb : BoundsQ :=
      if searchRadius > 0 then
        ⟨b.x - searchRadius, b.y - searchRadius,
         b.width + searchRadius * 2, b.height + searchRadius * 2⟩
      else b
    (getEntityCells sb 50).foldl
      (fun acc c =>
        (gridGet s.grid c).foldl
          (fun acc cand =>
            if cand.id ≠ e.id ∧ cand ∉ acc then acc ++ [cand] else acc)
          acc)
      []

/-- checkAABBCollision from collision.js: strict overlap of two rectangles. -/
def checkAABBCollision (box1 box2 : BoundsQ) : Bool :=
  decide (box1.x < box2.x + box2.width) &&
  decide (box1.x + box1.width > box2.x) &&
  decide (box1.y < box2.y + box2.height) &&
  decide (box1.y + box1.height > box2.y)

/-- Shell-to-tree segment of GameEngine.checkCollisions for one shell that
hit no tank: among the candidates of a 15 px search, the first entity whose
constructor is Tree and whose bounds overlap the shell's AABB is the tree
the shell impacts before being destroyed; none means the shell survives. -/
def shellTreeHit (s : HashState) (shell : SEntity) : Option SEntity :=
  match shell.bounds with
  | none => none
  | some sb =>
    (getCollisionCandidates s shell 15).find? (fun c =>
      decide (c.kind = EntityKind.treeK) &&
      (match c.bounds with
       | some tb => checkAABBCollision sb tb
       | none => false))

/-- Tank bounds from Tank.updateBounds (types.js second revision): a 48 by
32 rectangle centred on the tank. -/
def tankEntityOf (id : String) (pos : Vec2) : SEntity :=
  ⟨some id, some ⟨pos.x - 24, pos.y - 16, 48, 32⟩, .tankK⟩

/-- Pooled shell bounds from ShellPool.getShell: a 5 by 5 rectangle centred
on the shell. -/
def shellEntityOf (id : String) (pos : Vec2) : SEntity :=
  ⟨some id, some ⟨pos.x - 5 / 2, pos.y - 5 / 2, 5, 5⟩, .shellK⟩

/-- Tree bounds from Tree.updateBounds (types.js second revision): a square
of side size/8 centred on the trunk base at (x, y - size/2); the Tree
constructor assigns no id field. -/
def treeEntityOf (pos : Vec2) (size : ℚ) : SEntity :=
  ⟨none, some ⟨pos.x - size / 16, pos.y - size / 2 - size / 16,
    size / 8, size / 8⟩, .treeK⟩

/-- Upgrade bounds from Upgrade.updateBounds: a 22.5 square centred on the
upgrade; the Upgrade constructor assigns no id field either. -/
def upgradeEntityOf (pos : Vec2) : SEntity :=
  ⟨none, some ⟨pos.x - 22.5 / 2, pos.y - 22.5 / 2, 22.5, 22.5⟩, .upgradeK⟩

/-- Behaviour parameters set by AIController.setAILevelBehavior. -/
structure AIBehavior where
  decisionInterval : ℚ
  minShotInterval : ℚ
  accuracy : ℚ
  aggressionLevel : ℚ
  retreatThreshold : ℚ
  engagementRange : ℚ
deriving DecidableEq, Repr

/-- AIController.setAILevelBehavior from ai.js: the per-level constants,
with the default branch for any other level string. -/
def setAILevelBehavior (level : String) : AIBehavior :=
  if level = "easy" then ⟨500, 800, 0.6, 0.3, 0.7, 200⟩
  else if level = "intermediate" then ⟨400, 400, 0.8, 0.6, 0.5, 300⟩
  else if level = "hard" then ⟨100, 300, 0.9, 0.8, 0.3, 400⟩
  else if level = "insane" then ⟨50, 200, 0.95, 1.0, 0.1, 500⟩
  else ⟨200, 400, 0.8, 0.6, 0.5, 300⟩

/-- While loop subtracting two pi while the value exceeds pi, with fuel far
beyond any reachable iteration count. -/
def subPiLoop (pi : ℚ) : ℕ → ℚ → ℚ
  | 0, a => a
  | n + 1, a => if a > pi then subPiLoop pi n (a - 2 * pi) else a

/-- While loop adding two pi while the value is below minus pi. -/
def addPiLoop (pi : ℚ) : ℕ → ℚ → ℚ
  | 0, a => a
  | n + 1, a => if a < -pi then addPiLoop pi n (a + 2 * pi) else a

/-- Angle error computed by AIController.attemptShot: predict the enemy
position after the shell flight time, aim at it, and normalise the
difference with the tank's facing into the band from minus pi to pi, taking
the absolute value. -/
def predictedAngleDiff (M : MathOracle) (t : Tank) (enemyPos enemyVel : Vec2)
    (distance : ℚ) : ℚ :=
  let shellSpeed := t.attributes.kinetics
  let timeToHit := distance / shellSpeed
  let px := enemyPos.x + enemyVel.x * timeToHit
  let py := enemyPos.y + enemyVel.y * timeToHit
  let predictedAngle := M.atan2 (py - t.position.y) (px - t.position.x)
  |addPiLoop M.pi 1000 (subPiLoop M.pi 1000 (predictedAngle - t.angle))|

/-- Enemy speed perpendicular to the tank's facing, from attemptShot. -/
def perpendicularSpeed (M : MathOracle) (t : Tank) (enemyVel : Vec2) : ℚ :=
  |enemyVel.x * M.sin t.angle - enemyVel.y * M.cos t.angle|

/-- AIController.attemptShot from ai.js.  Returns whether the shot was
taken, the resulting tank and the resulting lastShotTime.  The guards, in
source order: the minimum shot interval, canShoot with the redundant
ammunition test, then the conjunction of the 0.8 rad angle window, the 30 to
400 distance window, the perpendicular-speed bound 3 and the accuracy draw. -/
def attemptShot (M : MathOracle) (behavior : AIBehavior) (lastShotTime : ℚ)
    (t : Tank) (enemyPos enemyVel : Vec2) (distance now rand : ℚ)
    (shellId : String) (pdir : ℚ) : Bool × Tank × ℚ :=
  if now - lastShotTime < behavior.minShotInterval then (false, t, lastShotTime)
  else if ¬ t.canShoot ∨ t.attributes.ammunition = 0 then (false, t, lastShotTime)
  else
    let angleOk := predictedAngleDiff M t enemyPos enemyVel distance < 0.8
    let distanceOk := distance ≥ 30 ∧ distance ≤ 400
    let speedOk := perpendicularSpeed M t enemyVel < 3
    if angleOk ∧ distanceOk ∧ speedOk ∧ rand < behavior.accuracy then
      (true, (Tank.shoot M t now shellId pdir).2, now)
    else (false, t, lastShotTime)

/-- Concrete oracle for witnesses whose statements hold for every oracle. -/
def oracleW : MathOracle :=
  { sqrt := fun _ => 0, atan2 := fun _ _ => 0
    cos := fun _ => 1, sin := fun _ => 0, pi := 3 }

/-- Concrete healthy tank used by witnesses. -/
def tank0 : Tank :=
  { id := "p1", position := ⟨500, 400⟩, angle := 0
    velocity := ⟨0, 0⟩, targetVelocity := ⟨0, 0⟩
    attributes := defaultTankAttributes
    isAlive := true, respawnTime := 0, reloadTime := 0
    lastShot := 0, firingImmunity := 0, isAI := false
    isFiring := false, fireAnim := 0, lastFireTime := 0
    pendulumDirection := 1 }

/-- Concrete dead tank used by witnesses. -/
def deadTank0 : Tank :=
  { tank0 with isAlive := false, respawnTime := 5000 }

/-- Concrete tank whose speed attribute sits just above the configured
minimum of 25. -/
def speed26Tank0 : Tank :=
  { tank0 with attributes := { defaultTankAttributes with speed := 26 } }

/-- C1: the claim asks that after every step, in particular after respawn
and after takeDamage, every attribute lies between its configured limits,
with damage clamping only down to the configured minimum.  The code
violates this: respawn resets the attributes to the TankAttributes
constructor values, whose rotation of 50 exceeds the configured rotation
maximum of 30, and takeDamage clamps speed at a hardcoded floor of 5, so a
tank with speed 26 is damaged to speed 24, below the configured speed
minimum of 25. -/
theorem attribute_limits_violated :
  (Tank.respawn deadTank0 ⟨600, 300⟩ 0).attributes.rotation = 50 ∧
  TANK_ATTRIBUTES.rotation.max = 30 ∧
  ¬ ((Tank.respawn deadTank0 ⟨600, 300⟩ 0).attributes.rotation ≤
      TANK_ATTRIBUTES.rotation.max) ∧
  (Tank.takeDamage speed26Tank0 none 1000).2.attributes.speed = 24 ∧
  TANK_ATTRIBUTES.speed.min = 25 ∧
  ¬ (TANK_ATTRIBUTES.speed.min ≤
      (Tank.takeDamage speed26Tank0 none 1000).2.attributes.speed) := by
  norm_num [Tank.respawn, Tank.takeDamage, Tank.die, deadTank0, tank0,
    speed26Tank0, defaultTankAttributes, DAMAGE_PARAMS, TANK_ATTRIBUTES]

/-- C2: whenever canShoot holds, shoot decrements ammunition by exactly one,
sets the reload timer to the configured 1000 ms, sets the firing immunity to
now plus 200 ms, records the shot time, and returns a shell placed 20 units
ahead of the tank along its facing whose velocity is the facing scaled by
the kinetics attribute and which carries the same immunity stamp. -/
theorem shoot_success_effects (M : MathOracle) (t : Tank) (now : ℚ)
    (sid : String) (pdir : ℚ) (h : t.canShoot = true) :
    (Tank.shoot M t now sid pdir).2.attributes.ammunition =
      t.attributes.ammunition - 1 ∧
    (Tank.shoot M t now sid pdir).2.reloadTime = 1000 ∧
    (Tank.shoot M t now sid pdir).2.firingImmunity = now + 200 ∧
    (Tank.shoot M t now sid pdir).2.lastShot = now ∧
    (Tank.shoot M t now sid pdir).1 = some
      { id := sid
        shooterId := t.id
        position := ⟨t.position.x + M.cos t.angle * 20,
                     t.position.y + M.sin t.angle * 20⟩
        velocity := ⟨M.cos t.angle * t.attributes.kinetics,
                     M.sin t.angle * t.attributes.kinetics⟩
        timestamp := now
        shooterImmunity := now + 200 } := by
  simp [Tank.shoot, h]

/-- Witness for C2 at a concrete tank with full ammunition. -/
theorem shoot_success_effects_witness :
  tank0.canShoot = true ∧
  ((Tank.shoot oracleW tank0 1000 "s" 1).2.attributes.ammunition =
      tank0.attributes.ammunition - 1 ∧
   (Tank.shoot oracleW tank0 1000 "s" 1).2.reloadTime = 1000 ∧
   (Tank.shoot oracleW tank0 1000 "s" 1).2.firingImmunity = 1000 + 200 ∧
   (Tank.shoot oracleW tank0 1000 "s" 1).2.lastShot = 1000 ∧
   (Tank.shoot oracleW tank0 1000 "s" 1).1 = some
     { id := "s"
       shooterId := tank0.id
       position := ⟨tank0.position.x + oracleW.cos tank0.angle * 20,
                    tank0.position.y + oracleW.sin tank0.angle * 20⟩
       velocity := ⟨oracleW.cos tank0.angle * tank0.attributes.kinetics,
                    oracleW.sin tank0.angle * tank0.attributes.kinetics⟩
       timestamp := 1000
       shooterImmunity := 1000 + 200 }) :=
  ⟨by decide, shoot_success_effects oracleW tank0 1000 "s" 1 (by decide)⟩

/-- C5 counterexample: the claim says a dead tank's velocity equals zero,
but die (reached here through a fatal takeDamage) never clears the velocity
field: a moving tank killed by one hit is dead with velocity still (10, 0). -/
theorem dead_tank_velocity_counterexample :
  (Tank.takeDamage
      { tank0 with velocity := ⟨10, 0⟩
                   attributes := { defaultTankAttributes with health := 1 } }
      none 1000).2.isAlive = false ∧
  ¬ ((Tank.takeDamage
      { tank0 with velocity := ⟨10, 0⟩
                   attributes := { defaultTankAttributes with health := 1 } }
      none 1000).2.velocity = ⟨0, 0⟩) := by
  norm_num [Tank.takeDamage, Tank.die, tank0, defaultTankAttributes,
    DAMAGE_PARAMS]

/-- C5 amended: while a tank is dead it cannot shoot (shoot returns null and
changes nothing), and each update step strictly decreases the respawn timer
by deltaTime, leaving every other field (velocity and position included)
untouched, until the timer reaches zero or below, at which point the tank
respawns; the velocity field itself retains its pre-death value rather than
being zeroed. -/
theorem dead_tank_step (M : MathOracle) (t : Tank) (dt now : ℚ) (rp : Vec2)
    (ra : ℚ) (sid : String) (pdir : ℚ)
    (hdead : t.isAlive = false) (hdt : 0 < dt) :
    Tank.shoot M t now sid pdir = (none, t) ∧
    t.respawnTime - dt < t.respawnTime ∧
    (0 < t.respawnTime - dt →
      Tank.updateDeadPhase t dt rp ra = { t with respawnTime := t.respawnTime - dt }) ∧
    (t.respawnTime - dt ≤ 0 →
      Tank.updateDeadPhase t dt rp ra =
        Tank.respawn { t with respawnTime := t.respawnTime - dt } rp ra) := by
  refine ⟨?_, by linarith, ?_, ?_⟩
  · have hc : t.canShoot = false := by simp [Tank.canShoot, hdead]
    simp [Tank.shoot, hc]
  · intro h
    simp only [Tank.updateDeadPhase]
    rw [if_neg (by simpa using not_le.mpr h)]
  · intro h
    simp only [Tank.updateDeadPhase]
    rw [if_pos (by simpa using h)]

/-- Witness for C5 amended at a freshly dead tank and a 16 ms step. -/
theorem dead_tank_step_witness :
  deadTank0.isAlive = false ∧ (0 : ℚ) < 16 ∧
  (Tank.shoot oracleW deadTank0 1000 "s" 1 = (none, deadTank0) ∧
   deadTank0.respawnTime - 16 < deadTank0.respawnTime ∧
   (0 < deadTank0.respawnTime - 16 →
     Tank.updateDeadPhase deadTank0 16 ⟨600, 300⟩ 0 =
       { deadTank0 with respawnTime := deadTank0.respawnTime - 16 }) ∧
   (deadTank0.respawnTime - 16 ≤ 0 →
     Tank.updateDeadPhase deadTank0 16 ⟨600, 300⟩ 0 =
       Tank.respawn { deadTank0 with respawnTime := deadTank0.respawnTime - 16 }
         ⟨600, 300⟩ 0)) :=
  ⟨by decide, by norm_num,
   dead_tank_step oracleW deadTank0 16 1000 ⟨600, 300⟩ 0 "s" 1
     (by decide) (by norm_num)⟩

/-- C10: when canShoot is false, shoot returns null and the tank is returned
entirely unchanged: no ammunition decrement, no reload or immunity timers,
no animation state change, no shell. -/
theorem shoot_failure_no_side_effects (M : MathOracle) (t : Tank) (now : ℚ)
    (sid : String) (pdir : ℚ) (h : t.canShoot = false) :
    Tank.shoot M t now sid pdir = (none, t) := by
  simp [Tank.shoot, h]

/-- Witness for C10 at a concrete dead tank. -/
theorem shoot_failure_no_side_effects_witness :
  deadTank0.canShoot = false ∧
  Tank.shoot oracleW deadTank0 2000 "s2" 1 = (none, deadTank0) :=
  ⟨by decide, shoot_failure_no_side_effects oracleW deadTank0 2000 "s2" 1 (by decide)⟩

/-- Damage attempt against a tank whose firing immunity extends past now is
refused without any change. -/
theorem takeDamage_immune (u : Tank) (sh : Option Shell) (now : ℚ)
    (h : now < u.firingImmunity) : Tank.takeDamage u sh now = (false, u) := by
  unfold Tank.takeDamage
  split_ifs with h1
  all_goals rfl

/-- C6: a tank that has fired within the last 200 ms carries a firing
immunity stamp of shot time plus 200, so takeDamage called with its own
shell before that stamp expires returns false and leaves the tank (every
attribute and the alive flag) unchanged. -/
theorem self_damage_blocked (M : MathOracle) (t : Tank) (t0 now : ℚ)
    (sid : String) (pdir : ℚ) (s : Shell) (t2 : Tank)
    (hshoot : Tank.shoot M t t0 sid pdir = (some s, t2))
    (hwin : now < t0 + 200) :
    Tank.takeDamage t2 (some s) now = (false, t2) := by
  by_cases hc : t.canShoot = true
  · unfold Tank.shoot at hshoot
    rw [if_neg (by simp [hc])] at hshoot
    have ht2 := congrArg Prod.snd hshoot
    dsimp only at ht2
    have himm : t2.firingImmunity = t0 + 200 := by rw [← ht2]
    exact takeDamage_immune t2 (some s) now (by rw [himm]; linarith)
  · exfalso
    have hnone : Tank.shoot M t t0 sid pdir = (none, t) := by
      simp [Tank.shoot, hc]
    rw [hnone] at hshoot
    exact Option.noConfusion (congrArg Prod.fst hshoot)

/-- Concrete result tank of the witness shot. -/
def firedTank0 : Tank :=
  { tank0 with
    firingImmunity := 1200
    attributes := { defaultTankAttributes with ammunition := 13 }
    reloadTime := 1000
    lastShot := 1000
    isFiring := true
    fireAnim := 0
    lastFireTime := 1000
    pendulumDirection := 1 }

/-- Concrete shell of the witness shot. -/
def firedShell0 : Shell :=
  { id := "s", shooterId := "p1", position := ⟨520, 400⟩
    velocity := ⟨300, 0⟩, timestamp := 1000, shooterImmunity := 1200 }

/-- Witness for C6: a concrete shot at time 1000 and a damage attempt with
the tank's own shell at time 1100, inside the 200 ms window. -/
theorem self_damage_blocked_witness :
  Tank.shoot oracleW tank0 1000 "s" 1 = (some firedShell0, firedTank0) ∧
  (1100 : ℚ) < 1000 + 200 ∧
  Tank.takeDamage firedTank0 (some firedShell0) 1100 = (false, firedTank0) :=
  ⟨by norm_num [Tank.shoot, Tank.canShoot, tank0, oracleW, firedTank0,
     firedShell0, defaultTankAttributes],
   by norm_num,
   self_damage_blocked oracleW tank0 1000 1100 "s" 1 firedShell0 firedTank0
     (by norm_num [Tank.shoot, Tank.canShoot, tank0, oracleW, firedTank0,
        firedShell0, defaultTankAttributes])
     (by norm_num)⟩

/-- Count of one type in an appended list splits over the parts. -/
theorem countUpgradesOfType_append (l1 l2 : List Upgrade) (T : UpgradeType) :
    countUpgradesOfType (l1 ++ l2) T =
      countUpgradesOfType l1 T + countUpgradesOfType l2 T := by
  simp [countUpgradesOfType, List.filter_append]

/-- Count of one type in a one-element list is its indicator. -/
theorem countUpgradesOfType_single (u : Upgrade) (T : UpgradeType) :
    countUpgradesOfType [u] T = if u.type = T then 1 else 0 := by
  by_cases h : u.type = T <;> simp [countUpgradesOfType, h]

/-- Effect of one spawnStep on the count of one type: the count grows by one
exactly when the walked type matches and its pre-pass count is below
target. -/
theorem count_spawnStep (M : MathOracle) (draws : UpgradeType → ℕ → ℚ × ℚ)
    (rotFn : UpgradeType → ℚ) (tp kp : List Vec2) (counts : UpgradeType → ℕ)
    (acc : List Upgrade) (Tw T : UpgradeType) :
    countUpgradesOfType (spawnStep M draws rotFn tp kp counts acc Tw) T =
      countUpgradesOfType acc T +
        if Tw = T ∧ counts Tw < upgradeTargetCount Tw then 1 else 0 := by
  unfold spawnStep
  by_cases h1 : counts Tw < upgradeTargetCount Tw
  · rw [if_pos h1, countUpgradesOfType_append, countUpgradesOfType_single]
    by_cases hT : Tw = T
    · subst hT
      simp [h1]
    · simp [hT]
  · rw [if_neg h1]
    have hx : ¬ (Tw = T ∧ counts Tw < upgradeTargetCount Tw) := fun hx => h1 hx.2
    simp [hx]

/-- Effect of folding spawnStep over a list of types on the count of one
type. -/
theorem count_spawnFold (M : MathOracle) (draws : UpgradeType → ℕ → ℚ × ℚ)
    (rotFn : UpgradeType → ℚ) (tp kp : List Vec2) (counts : UpgradeType → ℕ)
    (T : UpgradeType) (l : List UpgradeType) :
    ∀ acc : List Upgrade,
      countUpgradesOfType
          (l.foldl (spawnStep M draws rotFn tp kp counts) acc) T =
        countUpgradesOfType acc T +
          l.countP
            (fun Tw => decide (Tw = T ∧ counts Tw < upgradeTargetCount Tw)) := by
  induction l with
  | nil => intro acc; simp
  | cons hd tl ih =>
    intro acc
    simp only [List.foldl_cons, List.countP_cons]
    rw [ih, count_spawnStep]
    by_cases h : hd = T ∧ counts hd < upgradeTargetCount hd
    · obtain ⟨h1, h2⟩ := h
      subst h1
      simp [h2]
      omega
    · simp [h]

/-- Outcome of the attempt loop of getRandomPositionAvoidingObstacles:
either the returned position passes the distance check against every
obstacle, or the whole budget was consumed and the result is the fallback
position built from the next random draw. -/
theorem grpaoGo_spec (M : MathOracle) (ds : ℕ → ℚ × ℚ)
    (obstacles : List Vec2) (minD minX minY maxX maxY : ℚ) :
    ∀ fuel k : ℕ,
      tooCloseCheck M
          (grpaoGo M ds obstacles minD minX minY maxX maxY fuel k)
          obstacles minD = false ∨
      grpaoGo M ds obstacles minD minX minY maxX maxY fuel k =
        positionFromDraw (ds (k + fuel)) minX minY maxX maxY := by
  intro fuel
  induction fuel with
  | zero =>
    intro k
    right
    simp [grpaoGo]
  | succ n ih =>
    intro k
    simp only [grpaoGo]
    by_cases h : tooCloseCheck M
        (positionFromDraw (ds k) minX minY maxX maxY) obstacles minD
    · rw [if_pos h]
      rcases ih (k + 1) with h1 | h1
      · exact Or.inl h1
      · right
        rw [h1]
        congr 2
        omega
    · rw [if_neg h]
      exact Or.inl (Bool.eq_false_iff.mpr h)

/-- C3 counterexample: starting from an empty upgrade list, one respawn pass
leaves the live SPEED count at 1, not at its configured target 2 — the pass
spawns at most one instance per deficient type, so immediately after the
pass the count need not equal the target. -/
theorem spawn_pass_count_below_target :
  countUpgradesOfType
      (spawnUpgrades oracleW (fun _ _ => (0, 0)) (fun _ => 0) [] [] [])
      UpgradeType.SPEED = 1 ∧
  upgradeTargetCount UpgradeType.SPEED = 2 ∧
  countUpgradesOfType
      (spawnUpgrades oracleW (fun _ _ => (0, 0)) (fun _ => 0) [] [] [])
      UpgradeType.SPEED ≠ upgradeTargetCount UpgradeType.SPEED := by
  unfold spawnUpgrades
  rw [count_spawnFold]
  refine ⟨?_, rfl, ?_⟩
  · simp [countUpgradesOfType, allUpgradeTypes, upgradeTargetCount, List.countP,
      List.countP.go]
  · simp [countUpgradesOfType, allUpgradeTypes, upgradeTargetCount, List.countP,
      List.countP.go]

/-- C3 amended: one respawn pass spawns exactly one new upgrade for each
type whose pre-pass live count is below its configured target, so the
post-pass count of a type is its pre-pass count plus one when below target
and is unchanged otherwise (reaching the target only when the deficit was at
most one); each spawned position is drawn so that either it passes the 50 px
distance check of the source against every obstacle existing at its spawn
time, or the 100-attempt budget was exhausted and the unconstrained fallback
draw is used. -/
theorem upgrade_respawn_pass (M : MathOracle)
    (draws : UpgradeType → ℕ → ℚ × ℚ) (rotFn : UpgradeType → ℚ)
    (treePositions tankPositions : List Vec2) (ups : List Upgrade)
    (T : UpgradeType) :
    countUpgradesOfType
        (spawnUpgrades M draws rotFn treePositions tankPositions ups) T =
      countUpgradesOfType ups T +
        (if countUpgradesOfType ups T < upgradeTargetCount T then 1 else 0) ∧
    ∀ (obstacles : List Vec2) (ds : ℕ → ℚ × ℚ),
      tooCloseCheck M
          (getRandomPositionAvoidingObstacles M ds obstacles 50 50 50 1450 850)
          obstacles 50 = false ∨
      getRandomPositionAvoidingObstacles M ds obstacles 50 50 50 1450 850 =
        positionFromDraw (ds 100) 50 50 1450 850 := by
  constructor
  · unfold spawnUpgrades
    rw [count_spawnFold]
    have hcount : List.countP
        (fun Tw => decide (Tw = T ∧
          countUpgradesOfType ups Tw < upgradeTargetCount Tw))
        allUpgradeTypes =
        if countUpgradesOfType ups T < upgradeTargetCount T then 1 else 0 := by
      cases T
      all_goals
        by_cases hc : countUpgradesOfType ups UpgradeType.SPEED <
          upgradeTargetCount UpgradeType.SPEED
      all_goals simp [allUpgradeTypes, List.countP, List.countP.go]
    rw [hcount]
  · intro obstacles ds
    simpa using grpaoGo_spec M ds obstacles 50 50 50 1450 850 100 0

/-- Concrete tree entity: a tree at (100, 100) of size 32, so trunk bounds
x 98, y 82, width 4, height 4, which touch the cells (1, 1) and (2, 1). -/
def treeE0 : SEntity := treeEntityOf ⟨100, 100⟩ 32

/-- Concrete alive tank entity at (125, 125); its bounds occupy exactly the
cell (2, 2). -/
def tankE0 : SEntity := tankEntityOf "t1" ⟨125, 125⟩

/-- Concrete upgrade entity at (300, 300); its bounds occupy the cells with
x in 5 to 6 and y in 5 to 6. -/
def upgE0 : SEntity := upgradeEntityOf ⟨300, 300⟩

/-- Concrete shell entity at (100, 84), whose 5 by 5 bounds overlap the
trunk bounds of treeE0. -/
def shellE0 : SEntity := shellEntityOf "s1" ⟨100, 84⟩

/-- C4: the claim asks that after the rebuild every live bounded entity
(alive tanks, shells, trees, uncollected upgrades) sits in the index once
per occupied cell.  The code violates this for trees and upgrades: insert
silently skips any entity without an id field, and the Tree and Upgrade
constructors assign none, so after the rebuild the tree's occupied cells
(1, 1) and (2, 1) and the upgrade's cell (5, 5) are empty even though both
entities carry bounds, while the id-carrying tank is correctly present
exactly once in its cell (2, 2). -/
theorem spatial_index_drops_trees_and_upgrades :
  treeE0.bounds = some ⟨98, 82, 4, 4⟩ ∧
  upgE0.bounds.isSome = true ∧
  getEntityCells ⟨98, 82, 4, 4⟩ 50 = [(1, 1), (2, 1)] ∧
  gridGet (hashUpdate [tankE0, treeE0, upgE0]).grid (1, 1) = [] ∧
  gridGet (hashUpdate [tankE0, treeE0, upgE0]).grid (2, 1) = [] ∧
  gridGet (hashUpdate [tankE0, treeE0, upgE0]).grid (5, 5) = [] ∧
  gridGet (hashUpdate [tankE0, treeE0, upgE0]).grid (2, 2) = [tankE0] := by
  with_unfolding_all decide

/-- C8: the claim asks that a shell whose AABB overlaps a candidate tree's
trunk AABB impacts the tree and is removed.  The code never reaches that
branch: trees carry no id, so the rebuilt index contains no tree and the 15
px candidate search finds none — here the shell's bounds do overlap the
tree's trunk bounds, yet the candidate list is empty and the shell-to-tree
pass reports no hit, so the shell survives and the tree is never impacted. -/
theorem shell_tree_collision_never_fires :
  checkAABBCollision ⟨195 / 2, 163 / 2, 5, 5⟩ ⟨98, 82, 4, 4⟩ = true ∧
  shellE0.bounds = some ⟨195 / 2, 163 / 2, 5, 5⟩ ∧
  treeE0.bounds = some ⟨98, 82, 4, 4⟩ ∧
  getCollisionCandidates (hashUpdate [shellE0, treeE0]) shellE0 15 = [] ∧
  shellTreeHit (hashUpdate [shellE0, treeE0]) shellE0 = none := by
  with_unfolding_all decide

/-- C9: attemptShot fires only when every condition of the claim holds: the
minimum shot interval has elapsed, the predicted angle error is below 0.8
rad (hence below either claimed threshold, the lenient 1.2 rad included),
the distance lies in the 30 to 400 window (hence never below 25), the
enemy's perpendicular speed is below 8 (the code in fact demands below 3),
and the uniform draw beats the level's accuracy. -/
theorem attemptShot_fires_only_when (M : MathOracle) (level : String)
    (lastShotTime : ℚ) (t : Tank) (enemyPos enemyVel : Vec2)
    (distance now rand : ℚ) (sid : String) (pdir : ℚ)
    (h : (attemptShot M (setAILevelBehavior level) lastShotTime t enemyPos
            enemyVel distance now rand sid pdir).1 = true) :
    now - lastShotTime ≥ (setAILevelBehavior level).minShotInterval ∧
    predictedAngleDiff M t enemyPos enemyVel distance < 0.8 ∧
    predictedAngleDiff M t enemyPos enemyVel distance < 1.2 ∧
    30 ≤ distance ∧ distance ≤ 400 ∧ 25 ≤ distance ∧
    perpendicularSpeed M t enemyVel < 8 ∧
    rand < (setAILevelBehavior level).accuracy := by
  unfold attemptShot at h
  split_ifs at h with h1 h2
  by_cases h3 : predictedAngleDiff M t enemyPos enemyVel distance < 0.8 ∧
      (30 ≤ distance ∧ distance ≤ 400) ∧
      perpendicularSpeed M t enemyVel < 3 ∧
      rand < (setAILevelBehavior level).accuracy
  · obtain ⟨ha, ⟨hd1, hd2⟩, hs, hr⟩ := h3
    refine ⟨not_lt.mp h1, ha, by linarith, hd1, hd2, by linarith, by linarith, hr⟩
  · rw [if_neg h3] at h
    simp at h

/-- Witness for C9 at a concrete intermediate-level shot that fires. -/
theorem attemptShot_fires_only_when_witness :
  (attemptShot oracleW (setAILevelBehavior "intermediate") 0 tank0
      ⟨600, 400⟩ ⟨0, 0⟩ 100 10000 0 "s" 1).1 = true ∧
  ((10000 : ℚ) - 0 ≥ (setAILevelBehavior "intermediate").minShotInterval ∧
   predictedAngleDiff oracleW tank0 ⟨600, 400⟩ ⟨0, 0⟩ 100 < 0.8 ∧
   predictedAngleDiff oracleW tank0 ⟨600, 400⟩ ⟨0, 0⟩ 100 < 1.2 ∧
   (30 : ℚ) ≤ 100 ∧ (100 : ℚ) ≤ 400 ∧ (25 : ℚ) ≤ 100 ∧
   perpendicularSpeed oracleW tank0 ⟨0, 0⟩ < 8 ∧
   (0 : ℚ) < (setAILevelBehavior "intermediate").accuracy) :=
  ⟨by with_unfolding_all decide,
   attemptShot_fires_only_when oracleW "intermediate" 0 tank0 ⟨600, 400⟩
     ⟨0, 0⟩ 100 10000 0 "s" 1 (by with_unfolding_all decide)⟩

/-- Oracle used for the concrete tree-bounce statements; every value it
returns at a point the computation touches is the genuine one: the square
root of 9 is 3, the square root of 3.61 is 1.9, and atan2 of 0 with a
positive abscissa is 0. -/
def oracleTree : MathOracle :=
  { sqrt := fun q => if q = 9 then 3 else if q = 361 / 100 then 19 / 10 else 0
    atan2 := fun y x => if y = 0 ∧ 0 < x then 0 else 1
    cos := fun _ => 1
    sin := fun _ => 0
    pi := 3 }

/-- Concrete resting tree at (100, 100) of size 32 (trunk circle of radius
2 at (100, 84)). -/
def treeCE : TreeObj :=
  { position := ⟨100, 100⟩, size := 32, swingAngle := 0, swingVelocity := 0
    lastImpactTime := 0, frequencyBoostUntil := 0, frequencyBoostFactor := 1
    foliageVelocityX := 0, foliageVelocityY := 0
    foliageOffsetX := 0, foliageOffsetY := 0 }

/-- C7 counterexample: a tank at (103, 84) moving left at speed 10 overlaps
the trunk of treeCE (distance 3 below the contact distance 22) while moving
toward it, so the collision branch runs: the tank is pushed out to (122, 84)
and the impact deposits a foliage impulse and stamps the impact time — yet
the tree's swingVelocity stays exactly 0 (the swing impulse is minus the
atan2 angle of the impact direction, which is 0 for this purely positive-x
impact), and the resulting velocity (-1.9, 0) still points toward the
trunk: the inward component was scaled to 0.19 of its value, not
reversed. -/
theorem tank_tree_bounce_counterexample :
  (tankTreeCollisionStep oracleTree ⟨103, 84⟩ ⟨-10, 0⟩ treeCE 50000).position =
    ⟨122, 84⟩ ∧
  (tankTreeCollisionStep oracleTree ⟨103, 84⟩ ⟨-10, 0⟩ treeCE 50000).velocity =
    ⟨-19 / 10, 0⟩ ∧
  (tankTreeCollisionStep oracleTree ⟨103, 84⟩ ⟨-10, 0⟩ treeCE
      50000).tree.lastImpactTime = 50000 ∧
  (tankTreeCollisionStep oracleTree ⟨103, 84⟩ ⟨-10, 0⟩ treeCE
      50000).tree.foliageVelocityX = -3 / 10 ∧
  (tankTreeCollisionStep oracleTree ⟨103, 84⟩ ⟨-10, 0⟩ treeCE
      50000).tree.frequencyBoostFactor = 9 / 5 ∧
  (tankTreeCollisionStep oracleTree ⟨103, 84⟩ ⟨-10, 0⟩ treeCE
      50000).tree.swingVelocity = 0 ∧
  -((tankTreeCollisionStep oracleTree ⟨103, 84⟩ ⟨-10, 0⟩ treeCE
      50000).velocity.x * 1 +
    (tankTreeCollisionStep oracleTree ⟨103, 84⟩ ⟨-10, 0⟩ treeCE
      50000).velocity.y * 0) = 19 / 10 := by
  have hr : tankTreeCollisionStep oracleTree ⟨103, 84⟩ ⟨-10, 0⟩ treeCE 50000 =
      ⟨⟨122, 84⟩, ⟨-19 / 10, 0⟩,
        { treeCE with
            swingVelocity := 0
            foliageVelocityX := -3 / 10
            foliageVelocityY := 0
            lastImpactTime := 50000
            frequencyBoostUntil := 51200
            frequencyBoostFactor := 9 / 5 }⟩ := by
    norm_num [tankTreeCollisionStep, TreeObj.impact, TreeObj.boostSwingFrequency,
      oracleTree, treeCE, clampQ, min_def, max_def]
  rw [hr]
  norm_num [treeCE]

/-- C7 amended: when the tank circle overlaps the trunk circle (distance d
strictly between 0.1 and the contact distance) and the tank moves toward
the trunk (inward component vtt positive), the tank is separated along the
collision normal to exactly the contact distance from the trunk centre (so
it never passes through it), 0.8 of the inward component is added back
along the normal and 5 percent friction multiplies both components — which
scales the inward component to 0.19 of its value, still pointing toward
the trunk rather than reversing it — and the tree receives the impact of
the negated resulting velocity with force 0.3 times the inward component
followed by the 1.8-times frequency boost for 1200 ms; the swing impulse of
that impact is minus the atan2 angle of the impact direction scaled by the
clamped force and may be zero. -/
theorem tank_tree_bounce (M : MathOracle) (pos vel : Vec2) (tr : TreeObj)
    (now d dx dy minD vtt : ℚ)
    (hdx : dx = pos.x - tr.position.x)
    (hdy : dy = pos.y - (tr.position.y - tr.size / 2))
    (hminD : minD = 20 + tr.size / 16)
    (hsqrt : M.sqrt (dx * dx + dy * dy) = d)
    (hd2 : d * d = dx * dx + dy * dy)
    (hlow : 0.1 < d) (hhigh : d < minD)
    (hvtt : vtt = -(vel.x * (dx / d) + vel.y * (dy / d)))
    (hto : 0 < vtt) :
    (tankTreeCollisionStep M pos vel tr now).position =
      ⟨pos.x + dx / d * (minD - d), pos.y + dy / d * (minD - d)⟩ ∧
    ((tankTreeCollisionStep M pos vel tr now).position.x - tr.position.x) ^ 2 +
      ((tankTreeCollisionStep M pos vel tr now).position.y -
        (tr.position.y - tr.size / 2)) ^ 2 = minD ^ 2 ∧
    (tankTreeCollisionStep M pos vel tr now).velocity =
      ⟨(vel.x + dx / d * vtt * 0.8) * 0.95,
       (vel.y + dy / d * vtt * 0.8) * 0.95⟩ ∧
    -((tankTreeCollisionStep M pos vel tr now).velocity.x * (dx / d) +
      (tankTreeCollisionStep M pos vel tr now).velocity.y * (dy / d)) =
      0.19 * vtt ∧
    (tankTreeCollisionStep M pos vel tr now).tree =
      (TreeObj.impact M tr
          ⟨-((vel.x + dx / d * vtt * 0.8) * 0.95),
           -((vel.y + dy / d * vtt * 0.8) * 0.95)⟩
          (vtt * 0.3) now).boostSwingFrequency now 1200 1.8 := by
  have hdne : d ≠ 0 := ne_of_gt (by linarith)
  have hstep : tankTreeCollisionStep M pos vel tr now =
      ⟨⟨pos.x + dx / d * (minD - d), pos.y + dy / d * (minD - d)⟩,
       ⟨(vel.x + dx / d * vtt * 0.8) * 0.95,
        (vel.y + dy / d * vtt * 0.8) * 0.95⟩,
       (TreeObj.impact M tr
          ⟨-((vel.x + dx / d * vtt * 0.8) * 0.95),
           -((vel.y + dy / d * vtt * 0.8) * 0.95)⟩
          (vtt * 0.3) now).boostSwingFrequency now 1200 1.8⟩ := by
    simp only [tankTreeCollisionStep, ← hdx, ← hdy, hsqrt, ← hminD, ← hvtt]
    rw [if_pos ⟨hhigh, hlow⟩, if_pos hto]
  rw [hstep]
  refine ⟨rfl, ?_, rfl, ?_, rfl⟩
  · have e1 : pos.x + dx / d * (minD - d) - tr.position.x = dx * minD / d := by
      rw [hdx] at *
      field_simp
      ring
    have e2 : pos.y + dy / d * (minD - d) - (tr.position.y - tr.size / 2) =
        dy * minD / d := by
      rw [hdy] at *
      field_simp
      ring
    rw [e1, e2]
    field_simp
    linear_combination (-(minD ^ 2)) * hd2
  · have hvtt2 : vtt * d = -(vel.x * dx + vel.y * dy) := by
      rw [hvtt]
      field_simp
    field_simp
    linear_combination (-19 / 20 * d) * hvtt2 + (19 / 25 * vtt) * hd2

/-- Witness for C7 amended at the concrete overlap of a tank at (103, 84)
moving left with the trunk of treeCE: d is 3, dx is 3, dy is 0, the contact
distance is 22 and the inward component is 10. -/
theorem tank_tree_bounce_witness :
  (tankTreeCollisionStep oracleTree ⟨103, 84⟩ ⟨-10, 0⟩ treeCE 50000).position =
    ⟨103 + 3 / 3 * (22 - 3), 84 + 0 / 3 * (22 - 3)⟩ ∧
  -((tankTreeCollisionStep oracleTree ⟨103, 84⟩ ⟨-10, 0⟩ treeCE
      50000).velocity.x * (3 / 3) +
    (tankTreeCollisionStep oracleTree ⟨103, 84⟩ ⟨-10, 0⟩ treeCE
      50000).velocity.y * (0 / 3)) = 0.19 * 10 := by
  have h := tank_tree_bounce oracleTree ⟨103, 84⟩ ⟨-10, 0⟩ treeCE 50000 3 3 0 22 10
    (by norm_num [treeCE]) (by norm_num [treeCE]) (by norm_num [treeCE])
    (by norm_num [oracleTree]) (by norm_num) (by norm_num) (by norm_num)
    (by norm_num) (by norm_num)
  exact ⟨h.1, h.2.2.2.1⟩
